import Mathlib

/-!
Shallow embedding of the `vy_lambda_tools` routing engine, feature-flag
evaluation model, and handler adapters (from `vy_lambda_tools/routing.py`,
`vy_lambda_tools/feature_flag/base.py`, `vy_lambda_tools/feature_flag/providers.py`,
`vy_lambda_tools/handlers/sqs.py`, `vy_lambda_tools/handlers/api_gateway.py`),
with theorems checking the specification's claims against the code.

Python dicts of the inbound Lambda event are embedded as a structure holding
exactly the keys the routing code reads; `json.loads` of the standard library
is an external collaborator and is passed in as a parameter
`parse : String → Option Json` (`none` models a `JSONDecodeError`).
-/

namespace VyLambdaTools

/-! ### Data model: events (the keys read by `routing.py`) -/

/-- Python `pre + rest == s` test, i.e. `s.startswith(pre)`, computed on the
character list of the strings. -/
def strStartsWith (pre s : String) : Bool := pre.data.isPrefixOf s.data

/-- Python `s.endswith(suf)`, computed on the character list of the strings. -/
def strEndsWith (suf s : String) : Bool := suf.data.isSuffixOf s.data

/-- One entry of the `Records` list of an SQS / DynamoDB Streams event, with
the two keys `matches_route` reads. -/
structure EventRecord where
  eventSource : String
  eventSourceARN : String
deriving DecidableEq, Repr

/-- An inbound Lambda event, restricted to the keys the routing code reads.
`records` is the `Records` key (`none` = key absent); `resource` and
`version` model the corresponding optional keys of an API Gateway event.
`httpMethod` is the method string (API Gateway always sets it on v1 events,
and `create_request` only reads it after the `resource` key was seen). -/
structure Event where
  records : Option (List EventRecord) := none
  resource : Option String := none
  version : Option String := none
  httpMethod : String := ""
deriving DecidableEq, Repr

/-! ### Routing errors (`routing.py` lines 10-28) -/

/-- The three exception classes of `routing.py`: `NoRoutesError`,
`RoutingError` and `DuplicateRoutesError`. -/
inductive RouterError where
  | noRoutesError
  | routingError
  | duplicateRoutesError
deriving DecidableEq, Repr

/-! ### Route kinds

`routing.py` defines the abstract class `Route` and three concrete kinds:
`SQSRoute`, `DynamoDBStreamsRoute` and `APIGatewayV1Route`; per the design
they form a closed tagged variant. `κ` is the type of the Lambda context
object (passed through, never inspected by the routes), `γ` the handler
result type. -/

inductive Route (κ γ : Type) where
  | sqs (handler : Event → κ → γ) (queueArn : String)
  | dynamodbStreams (handler : Event → κ → γ) (tableArn : String)
  | apiGatewayV1 (handler : Event → κ → γ) (resource : Option String)
      (method : Option String)

/-- The `handler` attribute of a `Route`. -/
def Route.handler : Route κ γ → (Event → κ → γ)
  | .sqs h _ => h
  | .dynamodbStreams h _ => h
  | .apiGatewayV1 h _ _ => h

/-- `EventRouteBase._is_event_source`: false when the `Records` key is
absent, otherwise true iff some record's `eventSource` equals the route
class's `event_source` tag (exact string equality). -/
def isEventSource (tag : String) (e : Event) : Bool :=
  match e.records with
  | none => false
  | some recs => recs.any (fun r => r.eventSource == tag)

/-- Python truthiness of an optional string: `None` and `""` are falsy. -/
def optFalsy : Option String → Bool
  | none => true
  | some s => s.isEmpty

/-- `APIRouteBase.has_same_route` (`routing.py` lines 193-210), on the
`resource` / `method` fields of the two routes. -/
def apiHasSameRoute (res1 m1 res2 m2 : Option String) : Bool :=
  if res1 == res2 then
    if optFalsy m1 && optFalsy m2 then true
    else if (m1.isNone && m2.isSome) || (m2.isNone && m1.isSome) then true
    else m1 == m2
  else false

/-- `APIGatewayV1Route._is_event_source`: the event has a `resource` key and
its `version` key (if any) is not `"2.0"`. -/
def isApiV1EventSource (e : Event) : Bool :=
  match e.resource with
  | none => false
  | some _ => !(e.version == some "2.0")

/-- `APIRouteBase.matches_route` with `APIGatewayV1Route.create_request`
inlined: after the event-source check, the request is
`(event["resource"], event["httpMethod"])`; a truthy `resource` / `method`
on the route must then equal the request's field. -/
def apiV1Matches (resource method : Option String) (e : Event) : Bool :=
  if !(isApiV1EventSource e) then false
  else if !(optFalsy resource) && !(resource.getD "" == e.resource.getD "") then
    false
  else if !(optFalsy method) && !(method.getD "" == e.httpMethod) then false
  else true

/-- `has_same_route` of the three concrete route kinds; the `isinstance`
checks make distinct kinds never the same route. -/
def Route.hasSameRoute : Route κ γ → Route κ γ → Bool
  | .sqs _ a, .sqs _ b => a == b
  | .dynamodbStreams _ a, .dynamodbStreams _ b => a == b
  | .apiGatewayV1 _ res1 m1, .apiGatewayV1 _ res2 m2 =>
      apiHasSameRoute res1 m1 res2 m2
  | _, _ => false

/-- `matches_route` of the three concrete route kinds. `SQSRoute` compares
the record's `eventSourceARN` to `queue_arn` by `==`;
`DynamoDBStreamsRoute` uses `startswith(table_arn)`. The context argument
is accepted but never inspected, as in the source. -/
def Route.matchesRoute : Route κ γ → Event → κ → Bool
  | .sqs _ arn, e, _ =>
      isEventSource "aws:sqs" e &&
        (e.records.getD []).any (fun r => r.eventSourceARN == arn)
  | .dynamodbStreams _ arn, e, _ =>
      isEventSource "aws:dynamodb" e &&
        (e.records.getD []).any (fun r => strStartsWith arn r.eventSourceARN)
  | .apiGatewayV1 _ res m, e, _ => apiV1Matches res m e

/-! ### Router (`routing.py` lines 52-78) -/

/-- The scan loop of `Router.__call__`: first matching route's handler is
invoked; `RoutingError` when the loop falls through. -/
def scanRoutes (e : Event) (c : κ) : List (Route κ γ) → Except RouterError γ
  | [] => .error .routingError
  | r :: rest =>
      if r.matchesRoute e c then .ok (r.handler e c) else scanRoutes e c rest

/-- `Router.__call__`: `NoRoutesError` on an empty route list, otherwise the
in-order scan. -/
def routerCall (routes : List (Route κ γ)) (e : Event) (c : κ) :
    Except RouterError γ :=
  if routes.length == 0 then .error .noRoutesError
  else scanRoutes e c routes

/-- `Router.add_route`: `DuplicateRoutesError` when `route == r` (that is,
`route.has_same_route(r)`) for some existing `r`; otherwise append. -/
def addRoute (routes : List (Route κ γ)) (route : Route κ γ) :
    Except RouterError (List (Route κ γ)) :=
  if routes.any (fun r => route.hasSameRoute r) then .error .duplicateRoutesError
  else .ok (routes ++ [route])

/-! ### Feature flags (`feature_flag/base.py`, `feature_flag/providers.py`)

JSON values as produced by `json.loads`; numbers are embedded as integers
(the stored flag fields are booleans and string lists, so fractional
numbers play no role in the claims). `Json.null` is Python `None`. -/

inductive Json where
  | null
  | bool (b : Bool)
  | num (n : Int)
  | str (s : String)
  | arr (elems : List Json)
  | obj (fields : List (String × Json))

mutual

/-- Structural equality of JSON values (Python `==` restricted to
same-typed operands; the flag code only compares strings, see
`strInJsonList`, and `isPyBool` handles the bool/int mix separately). -/
def Json.beq : Json → Json → Bool
  | .null, .null => true
  | .bool a, .bool b => a == b
  | .num a, .num b => a == b
  | .str a, .str b => a == b
  | .arr xs, .arr ys => Json.beqList xs ys
  | .obj fs, .obj gs => Json.beqFields fs gs
  | _, _ => false

/-- Elementwise `Json.beq` on lists. -/
def Json.beqList : List Json → List Json → Bool
  | [], [] => true
  | x :: xs, y :: ys => Json.beq x y && Json.beqList xs ys
  | _, _ => false

/-- Elementwise `Json.beq` on key/value lists. -/
def Json.beqFields : List (String × Json) → List (String × Json) → Bool
  | [], [] => true
  | (k, v) :: fs, (k2, v2) :: gs =>
      k == k2 && Json.beq v v2 && Json.beqFields fs gs
  | _, _ => false

end

instance : BEq Json := ⟨Json.beq⟩

/-- `FlagValue` (`base.py` lines 18-26). The fields are dynamically typed in
Python, so `enabled` is kept as the raw JSON value the provider produced
(the type annotation promises `bool`, but the code can store other values);
`context` is the parsed JSON list (or Python `None`). -/
structure FlagValue where
  enabled : Json
  context : Option (List Json)

/-- The two exception kinds `get_flag` can raise: `FlagNotFound(key)`
(`base.py` lines 6-15) and `ValueError` for an invalid stored value
(`providers.py` lines 92 and 109; the human-readable message is elided,
the offending key kept). -/
inductive FlagErr where
  | flagNotFound (key : String)
  | valueError (key : String)
deriving DecidableEq, Repr

/-- A `FlagProvider`: `get_flag` as a function from the key, returning the
value or the exception it raises. -/
def FlagProvider : Type := String → Except FlagErr FlagValue

/-- `FeatureFlag._value` (`base.py` lines 67-71): provider lookup with
`FlagNotFound` converted to `FlagValue(enabled=default, context=None)`;
other exceptions propagate. -/
def flagValue (provider : FlagProvider) (key : String) (default : Bool) :
    Except FlagErr FlagValue :=
  match provider key with
  | .error (.flagNotFound _) => .ok { enabled := .bool default, context := none }
  | .error e => .error e
  | .ok v => .ok v

/-- `ToggleFlag.evaluate` (`base.py` lines 80-81): the context argument is
accepted (`*args, **kwargs`) but ignored; returns `self._value().enabled`. -/
def toggleEvaluate (provider : FlagProvider) (key : String) (default : Bool)
    (_forContext : Option String) : Except FlagErr Json :=
  match flagValue provider key default with
  | .error e => .error e
  | .ok v => .ok v.enabled

/-- Python `for_context in value.context` for a string `for_context` and a
JSON list: `str.__eq__` is only true against an equal string. -/
def strInJsonList (c : String) (l : List Json) : Bool :=
  l.any (fun j => j == Json.str c)

/-- `ContextAwareFlag.evaluate` (`base.py` lines 90-101). The result is the
raw value returned by the Python function: `value.enabled` when the stored
context is `None`, else `False` without a supplied context, else the
membership test. -/
def contextAwareEvaluate (provider : FlagProvider) (key : String)
    (default : Bool) (forContext : Option String) : Except FlagErr Json :=
  match flagValue provider key default with
  | .error e => .error e
  | .ok v =>
      match v.context with
      | none => .ok v.enabled
      | some l =>
          match forContext with
          | none => .ok (.bool false)
          | some c => .ok (.bool (strInJsonList c l))

/-! ### The AWS Parameter Store provider (`providers.py` lines 32-111) -/

/-- One parameter returned by `get_parameters_by_path`: its `Name` and
`Value` entries. -/
structure Param where
  name : String
  value : String
deriving DecidableEq, Repr

/-- Python `enabled in (True, False)`: `==` against `True` / `False` is true
for the booleans themselves and, by numeric equality, for `1` and `0`. -/
def isPyBool : Json → Bool
  | .bool _ => true
  | .num n => n == 0 || n == 1
  | _ => false

/-- `json.loads` of a parameter value with a `JSONDecodeError` swallowed to
`None` and JSON `null` mapped to Python `None`: the shape both fields of
`get_flag` reduce an optional raw string to. Absent (`none`) or empty
strings are not parsed (`json.loads(cp) if context_parameter else None`;
for `enabled` the parameter is always present when this is reached). -/
def loadSwallow (parse : String → Option Json) : Option String → Option Json
  | none => none
  | some s =>
      if s.isEmpty then none
      else
        match parse s with
        | none => none
        | some .null => none
        | some j => some j

/-- `AWSParameterStoreProvider.get_flag` (`providers.py` lines 63-111).
`ssmResult` is the outcome of the `get_parameters_by_path` call (`.error`
models any exception the client raised, carrying its message);
`parse` is `json.loads`. -/
def getFlag (parse : String → Option Json) (key : String)
    (ssmResult : Except String (List Param)) : Except FlagErr FlagValue :=
  match ssmResult with
  | .error _ => .error (.flagNotFound key)
  | .ok params =>
      if params.isEmpty then .error (.flagNotFound key)
      else
        match params.find? (fun p => strEndsWith "enabled" p.name) with
        | none => .error (.flagNotFound key)
        | some ep =>
            match loadSwallow parse (some ep.value) with
            | none => .error (.flagNotFound key)
            | some enabled =>
                if !(isPyBool enabled) then .error (.valueError key)
                else
                  match loadSwallow parse
                      ((params.find? (fun p => strEndsWith "context" p.name)).map
                        Param.value) with
                  | none => .ok { enabled := enabled, context := none }
                  | some (.arr xs) => .ok { enabled := enabled, context := some xs }
                  | some _ => .error (.valueError key)

/-- A small concrete stand-in for `json.loads` on the few literals used in
the concrete checks (the theorems themselves quantify over the parser). -/
def paramParse : String → Option Json
  | "null" => some .null
  | "true" => some (.bool true)
  | "false" => some (.bool false)
  | "1" => some (.num 1)
  | "0" => some (.num 0)
  | "\"x\"" => some (.str "x")
  | "\"A\"" => some (.str "A")
  | "[\"A\"]" => some (.arr [.str "A"])
  | _ => none

/-! ### SQS handler adapter (`handlers/sqs.py`) -/

/-- A Python exception at the handler boundary: its runtime type's name and
its message. -/
structure PyExc where
  typeName : String
  msg : String
deriving DecidableEq, Repr

/-- One SQS record as read by `SQSHandler.__call__`: `record.body` and
`record.message_id`. -/
structure SQSRecord where
  messageId : String
  body : String
deriving DecidableEq, Repr

/-- `DecodedOutput`: the `(body, metadata)` pair an envelope decoder
produces. -/
def DecodedOutput : Type := Json × Json

/-- `NoEnvelope.decode`: the raw JSON body, empty metadata. -/
def noEnvelopeDecode (event : Json) : Except PyExc DecodedOutput :=
  .ok (event, .obj [])

/-- `EventBridgeEnvelope.decode`: `event["detail"]` as body, the remaining
keys as metadata; a missing `detail` key or a non-object event raises. -/
def eventBridgeDecode (event : Json) : Except PyExc DecodedOutput :=
  match event with
  | .obj fields =>
      match fields.lookup "detail" with
      | some d => .ok (d, .obj (fields.filter (fun kv => !(kv.1 == "detail"))))
      | none => .error { typeName := "KeyError", msg := "detail" }
  | _ => .error { typeName := "TypeError", msg := "not a dict" }

/-- `SNSEnvelope.decode`: `json.loads(event["Message"])` as body, the
remaining keys as metadata. -/
def snsDecode (parse : String → Option Json) (event : Json) :
    Except PyExc DecodedOutput :=
  match event with
  | .obj fields =>
      match fields.lookup "Message" with
      | some (.str m) =>
          match parse m with
          | some body =>
              .ok (body, .obj (fields.filter (fun kv => !(kv.1 == "Message"))))
          | none => .error { typeName := "JSONDecodeError", msg := m }
      | some _ => .error { typeName := "TypeError", msg := "Message not a string" }
      | none => .error { typeName := "KeyError", msg := "Message" }
  | _ => .error { typeName := "TypeError", msg := "not a dict" }

/-- The body of the `try` block of `SQSHandler.__call__` for one record:
`json.loads(record.body)`, then the envelope decode, then the
implementor's `handler(body, metadata)`; any raised exception is the
`.error` case. -/
def processSQSRecord (parse : String → Option Json)
    (decode : Json → Except PyExc DecodedOutput)
    (handler : Json → Json → Except PyExc Unit) (record : SQSRecord) :
    Except PyExc Unit :=
  match parse record.body with
  | none => .error { typeName := "JSONDecodeError", msg := record.body }
  | some recordEvent =>
      match decode recordEvent with
      | .error e => .error e
      | .ok (body, metadata) => handler body metadata

/-- Whether a modelled Python call raised. -/
def raised {ε α : Type} : Except ε α → Bool
  | .ok _ => false
  | .error _ => true

/-- The record loop of `SQSHandler.__call__`: each record is processed under
its own `try`, a raised exception appends `record.message_id` to
`failed_items` and the loop continues with the next record. -/
def sqsFailedItems (proc : SQSRecord → Except PyExc Unit) :
    List SQSRecord → List String
  | [] => []
  | r :: rest =>
      match proc r with
      | .ok _ => sqsFailedItems proc rest
      | .error _ => r.messageId :: sqsFailedItems proc rest

/-- The value returned by `SQSHandler.__call__`:
`{"batchItemFailures": [{"itemIdentifier": item} for item in failed_items]}`. -/
def sqsHandlerCall (proc : SQSRecord → Except PyExc Unit)
    (records : List SQSRecord) : Json :=
  .obj [("batchItemFailures",
    .arr ((sqsFailedItems proc records).map
      (fun item => .obj [("itemIdentifier", .str item)])))]

/-! ### API Gateway handler adapter (`handlers/api_gateway.py`) -/

/-- The inbound API Gateway proxy event, restricted to the pieces
`_prepare_request` reads (dicts as key/value lists; `body` is the raw
body string, base64 decoding is not modelled so `decoded_body` = `body`). -/
structure ApiGwEvent where
  pathParameters : Option (List (String × String)) := none
  queryStringParameters : Option (List (String × String)) := none
  headers : List (String × String) := []
  body : Option String := none
  accountId : Option String := none
  authorizer : Option (List (String × String)) := none

/-- `HTTPRequest` (`api_gateway.py` lines 16-24); the `jwt` authorizer is
kept as its key/value claims. -/
structure HTTPRequest where
  pathParameters : List (String × String)
  queryParameters : List (String × String)
  body : Json
  rawBody : Option String
  accountId : Option String
  jwt : Option (List (String × String))
  headers : List (String × String)

/-- The body dispatch of `_prepare_request` (lines 67-77): `{}` for a falsy
body; `parse_qs` under the form-urlencoded content type; `json.loads` when
the body is JSON; otherwise `raise ValueError("Unsupported content type")`.
`parseQs` models `urllib.parse.parse_qs`. -/
def prepareBody (parse : String → Option Json) (parseQs : String → Json)
    (headers : List (String × String)) : Option String → Except PyExc Json
  | none => .ok (.obj [])
  | some b =>
      if b.isEmpty then .ok (.obj [])
      else if headers.lookup "Content-Type"
          == some "application/x-www-form-urlencoded" then
        .ok (parseQs b)
      else
        match parse b with
        | some j => .ok j
        | none => .error { typeName := "ValueError",
                           msg := "Unsupported content type" }

/-- `ApiGatewayHandler._prepare_request` (lines 49-92): path and query
parameters percent-decoded via `unquote`, the body dispatched by content
type, identity and authorizer passed through. -/
def prepareRequest (parse : String → Option Json) (unquote : String → String)
    (parseQs : String → Json) (e : ApiGwEvent) : Except PyExc HTTPRequest :=
  match prepareBody parse parseQs e.headers e.body with
  | .error ex => .error ex
  | .ok body =>
      .ok { pathParameters :=
              (e.pathParameters.getD []).map (fun kv => (kv.1, unquote kv.2)),
            queryParameters :=
              (e.queryStringParameters.getD []).map
                (fun kv => (kv.1, unquote kv.2)),
            body := body,
            rawBody := e.body,
            accountId := e.accountId,
            jwt := e.authorizer,
            headers := e.headers }

/-- Python `str(exception).strip(<quote>)`: all leading and trailing
apostrophe characters removed. -/
def stripQuotes (s : String) : String :=
  String.mk
    (((s.data.dropWhile (fun c => c == Char.ofNat 39)).reverse.dropWhile
        (fun c => c == Char.ofNat 39)).reverse)

mutual

/-- `json.dumps` with the default separators, on embedded JSON values
(string escaping is not modelled; the bodies in the claims contain no
characters needing escapes). -/
def Json.dumps : Json → String
  | .null => "null"
  | .bool true => "true"
  | .bool false => "false"
  | .num n => toString n
  | .str s => "\"" ++ s ++ "\""
  | .arr xs => "[" ++ Json.dumpsList xs ++ "]"
  | .obj fs => "\x7b" ++ Json.dumpsFields fs ++ "\x7d"

/-- Comma-separated `json.dumps` of array elements. -/
def Json.dumpsList : List Json → String
  | [] => ""
  | [x] => Json.dumps x
  | x :: y :: xs => Json.dumps x ++ ", " ++ Json.dumpsList (y :: xs)

/-- Comma-separated `json.dumps` of object entries. -/
def Json.dumpsFields : List (String × Json) → String
  | [] => ""
  | [(k, v)] => "\"" ++ k ++ "\": " ++ Json.dumps v
  | (k, v) :: f :: fs =>
      "\"" ++ k ++ "\": " ++ Json.dumps v ++ ", " ++
        Json.dumpsFields (f :: fs)

end

/-- `ApiGatewayHandler.handle_error` (lines 94-103): the exception's runtime
type looked up in `allowed_errors` with default `500`; on `500` the message
is generic and `handling_api_gateway_error` is called (third component
`true`), otherwise the message is `str(exception).strip(<quote>)`. The body
is the normalized `{"message": ..., "error_type": ...}` object. -/
def handleError (allowedErrors : String → Option Nat) (exc : PyExc) :
    Nat × Json × Bool :=
  let statusCode := (allowedErrors exc.typeName).getD 500
  if statusCode == 500 then
    (500, .obj [("message", .str "An unexpected error happened"),
                ("error_type", .str exc.typeName)], true)
  else
    (statusCode, .obj [("message", .str (stripQuotes exc.msg)),
                       ("error_type", .str exc.typeName)], false)

/-- The response dict of `ApiGatewayHandler.__call__`. -/
structure HttpResponse where
  statusCode : Nat
  headers : List (String × String)
  body : String

/-- `ApiGatewayHandler.__call__` (lines 105-124). `_prepare_request` runs
before the `try`, so its exceptions propagate (`.error`); the domain
handler runs inside the `try` with exceptions routed through
`handle_error`. The dataclass-to-dict branch is the identity here (bodies
are already JSON values). The boolean records whether
`handling_api_gateway_error` was called. -/
def apiGatewayCall (parse : String → Option Json) (unquote : String → String)
    (parseQs : String → Json) (allowedErrors : String → Option Nat)
    (handler : HTTPRequest → Except PyExc (Nat × Json)) (event : ApiGwEvent) :
    Except PyExc (HttpResponse × Bool) :=
  match prepareRequest parse unquote parseQs event with
  | .error ex => .error ex
  | .ok request =>
      match handler request with
      | .ok (statusCode, body) =>
          .ok ({ statusCode := statusCode,
                 headers := [("Content-Type", "application/json")],
                 body := Json.dumps body }, false)
      | .error ex =>
          match handleError allowedErrors ex with
          | (statusCode, body, logged) =>
              .ok ({ statusCode := statusCode,
                     headers := [("Content-Type", "application/json")],
                     body := Json.dumps body }, logged)

/-! ### Helper lemmas on the router -/

/-- The scan of `Router.__call__` returns the handler result of the route at
index `i` when it matches and no earlier route does. -/
theorem scanRoutes_first_match {κ γ : Type} (e : Event) (c : κ) :
    ∀ (routes : List (Route κ γ)) (i : Fin routes.length),
      (routes.get i).matchesRoute e c = true →
      (∀ j : Fin routes.length, (j : ℕ) < (i : ℕ) →
        (routes.get j).matchesRoute e c = false) →
      scanRoutes e c routes = .ok ((routes.get i).handler e c) := by
  intro routes
  induction routes with
  | nil => exact fun i => absurd i.isLt (by simp)
  | cons r rest ih =>
      intro i hm hprev
      match i with
      | ⟨0, h0⟩ =>
          simp only [List.get] at hm ⊢
          simp [scanRoutes, hm]
      | ⟨k + 1, hk⟩ =>
          have h0 : r.matchesRoute e c = false :=
            hprev ⟨0, Nat.succ_pos _⟩ (Nat.succ_pos _)
          simp only [List.get] at hm ⊢
          simp only [scanRoutes, h0, Bool.false_eq_true, if_false]
          exact ih ⟨k, Nat.lt_of_succ_lt_succ hk⟩ hm
            (fun j hj =>
              hprev ⟨j.val + 1, Nat.succ_lt_succ j.isLt⟩ (Nat.succ_lt_succ hj))

/-- The scan of `Router.__call__` falls through to `RoutingError` when no
route matches. -/
theorem scanRoutes_no_match {κ γ : Type} (e : Event) (c : κ)
    (routes : List (Route κ γ))
    (h : ∀ r ∈ routes, r.matchesRoute e c = false) :
    scanRoutes e c routes = .error .routingError := by
  induction routes with
  | nil => rfl
  | cons r rest ih =>
      simp only [scanRoutes, h r (List.mem_cons_self r rest), Bool.false_eq_true,
        if_false]
      exact ih (fun r2 hr2 => h r2 (List.mem_cons_of_mem r hr2))

/-- C1: dispatch on an empty router raises `NoRoutes`; on a non-empty router
it scans the routes in insertion order and returns the result of the
handler of the first route whose `matches_route` is true; when the router
is non-empty and no route matches it raises `RoutingError`; the two errors
are distinct. -/
theorem router_dispatch_spec {κ γ : Type} (routes : List (Route κ γ))
    (e : Event) (c : κ) :
    (routes = [] → routerCall routes e c = .error .noRoutesError) ∧
    (∀ i : Fin routes.length,
        (routes.get i).matchesRoute e c = true →
        (∀ j : Fin routes.length, (j : ℕ) < (i : ℕ) →
          (routes.get j).matchesRoute e c = false) →
        routerCall routes e c = .ok ((routes.get i).handler e c)) ∧
    (routes ≠ [] → (∀ r ∈ routes, r.matchesRoute e c = false) →
        routerCall routes e c = .error .routingError) ∧
    RouterError.noRoutesError ≠ RouterError.routingError := by
  refine ⟨?_, ?_, ?_, by simp⟩
  · intro h; subst h; rfl
  · intro i hm hprev
    have hne : routes.length ≠ 0 := Nat.pos_iff_ne_zero.mp (i.val.zero_le.trans_lt i.isLt)
    simp only [routerCall, beq_iff_eq, hne, if_false]
    exact scanRoutes_first_match e c routes i hm hprev
  · intro hne hall
    have hlen : routes.length ≠ 0 := fun h => hne (List.length_eq_zero.mp h)
    simp only [routerCall, beq_iff_eq, hlen, if_false]
    exact scanRoutes_no_match e c routes hall

/-- Witness for C1 at concrete inputs: the empty router, a two-route router
whose second route is the first match, and a one-route router with no
match. -/
theorem router_dispatch_spec_witness :
    routerCall ([] : List (Route Unit Nat)) { records := none } () =
      .error .noRoutesError ∧
    routerCall
        [Route.sqs (fun _ _ => 1) "arn:q1", Route.sqs (fun _ _ => 2) "arn:q2"]
        { records := some [{ eventSource := "aws:sqs",
                             eventSourceARN := "arn:q2" }] } () = .ok 2 ∧
    routerCall [Route.sqs (fun _ _ => (1 : Nat)) "arn:q1"]
        { records := some [{ eventSource := "aws:sqs",
                             eventSourceARN := "arn:zzz" }] } () =
      .error .routingError := by
  refine ⟨(router_dispatch_spec _ _ _).1 rfl, ?_, ?_⟩
  · exact (router_dispatch_spec
        [Route.sqs (fun _ _ => 1) "arn:q1", Route.sqs (fun _ _ => 2) "arn:q2"]
        { records := some [{ eventSource := "aws:sqs",
                             eventSourceARN := "arn:q2" }] } ()).2.1
      ⟨1, by decide⟩ rfl (by decide)
  · exact (router_dispatch_spec _ _ _).2.2.1 (by simp) (by decide)

/-! ### Helper lemmas on duplicate detection -/

/-- `APIRouteBase.has_same_route` is symmetric in the two routes. -/
theorem apiHasSameRoute_symm (res1 m1 res2 m2 : Option String) :
    apiHasSameRoute res1 m1 res2 m2 = apiHasSameRoute res2 m2 res1 m1 := by
  unfold apiHasSameRoute
  by_cases h : res1 = res2
  · subst h
    simp only [beq_self_eq_true, if_true]
    cases m1 with
    | none =>
        cases m2 with
        | none => rfl
        | some s => by_cases hs : s.isEmpty <;> simp [optFalsy, hs]
    | some s1 =>
        cases m2 with
        | none => by_cases hs : s1.isEmpty <;> simp [optFalsy, hs]
        | some s2 =>
            simp only [optFalsy, Option.isNone_some, Option.isSome_some,
              Bool.false_and, Bool.and_false, Bool.or_self, Bool.false_eq_true,
              if_false]
            rw [Bool.and_comm]
            by_cases he : (s2.isEmpty && s1.isEmpty) = true
            · simp [he]
            · simp [he, beq_iff_eq, eq_comm]
  · have h2 : ¬(res2 = res1) := fun hh => h hh.symm
    simp [beq_iff_eq, h, h2]

/-- `has_same_route` of the closed route variant is symmetric. -/
theorem hasSameRoute_symm {κ γ : Type} (r s : Route κ γ) :
    r.hasSameRoute s = s.hasSameRoute r := by
  cases r <;> cases s <;>
    simp [Route.hasSameRoute, apiHasSameRoute_symm, beq_iff_eq, eq_comm]

/-- C3: `add_route` raises `DuplicateRoutes` and leaves the route list
unchanged when an existing route's `has_same_route` holds against the new
route; otherwise it appends the new route at the end; consequently a
router built by successful `add_route` calls never holds two routes
related by `has_same_route`. -/
theorem add_route_spec {κ γ : Type} (routes : List (Route κ γ))
    (newRoute : Route κ γ) :
    ((∃ r ∈ routes, r.hasSameRoute newRoute = true) →
        addRoute routes newRoute = .error .duplicateRoutesError) ∧
    ((∀ r ∈ routes, r.hasSameRoute newRoute = false) →
        addRoute routes newRoute = .ok (routes ++ [newRoute])) ∧
    (routes.Pairwise (fun a b => a.hasSameRoute b = false) →
      ∀ routes2, addRoute routes newRoute = .ok routes2 →
        routes2.Pairwise (fun a b => a.hasSameRoute b = false)) := by
  refine ⟨?_, ?_, ?_⟩
  · rintro ⟨r, hr, hsame⟩
    have hany : routes.any (fun r2 => newRoute.hasSameRoute r2) = true :=
      List.any_eq_true.mpr ⟨r, hr, by rw [hasSameRoute_symm]; exact hsame⟩
    simp [addRoute, hany]
  · intro hall
    have hany : routes.any (fun r2 => newRoute.hasSameRoute r2) = false := by
      simp only [List.any_eq_false]
      intro r hr
      rw [hasSameRoute_symm]
      simp [hall r hr]
    simp [addRoute, hany]
  · intro hpw routes2 hok
    have hany : routes.any (fun r2 => newRoute.hasSameRoute r2) = false := by
      cases hc : routes.any (fun r2 => newRoute.hasSameRoute r2) with
      | false => rfl
      | true => simp [addRoute, hc] at hok
    have hroutes2 : routes2 = routes ++ [newRoute] := by
      simp [addRoute, hany] at hok
      exact hok.symm
    subst hroutes2
    rw [List.pairwise_append]
    refine ⟨hpw, List.pairwise_singleton _ _, ?_⟩
    intro a ha b hb
    have hb2 : b = newRoute := by simpa using hb
    subst hb2
    rw [hasSameRoute_symm]
    have := List.any_eq_false.mp hany a ha
    simpa using this

/-- Witness for C3 at concrete inputs: registering a route with the same
queue ARN fails with `DuplicateRoutes`, a distinct ARN is appended. -/
theorem add_route_spec_witness :
    addRoute (κ := Unit) [Route.sqs (fun _ _ => (1 : Nat)) "arn:q"]
        (Route.sqs (fun _ _ => (2 : Nat)) "arn:q") =
      .error .duplicateRoutesError ∧
    addRoute (κ := Unit) [Route.sqs (fun _ _ => (1 : Nat)) "arn:q"]
        (Route.sqs (fun _ _ => (2 : Nat)) "arn:q2") =
      .ok [Route.sqs (fun _ _ => 1) "arn:q", Route.sqs (fun _ _ => 2) "arn:q2"] := by
  constructor
  · exact (add_route_spec _ _).1
      ⟨Route.sqs (fun _ _ => 1) "arn:q", List.mem_singleton.mpr rfl, rfl⟩
  · exact (add_route_spec _ _).2.1 (by decide)

/-- C4: for HTTP routes on the same resource path, `has_same_route` is true
whenever at least one of the two has no method set; when both methods are
explicit it is true exactly when the methods are equal, so two different
explicit methods on the same path both register successfully. -/
theorem api_route_duplicate_spec {κ γ : Type} (h1 h2 : Event → κ → γ)
    (res m1 m2 : Option String) :
    ((m1 = none ∨ m2 = none) →
        (Route.apiGatewayV1 h1 res m1).hasSameRoute
          (Route.apiGatewayV1 h2 res m2) = true) ∧
    (∀ a b, m1 = some a → m2 = some b →
        (Route.apiGatewayV1 h1 res m1).hasSameRoute
          (Route.apiGatewayV1 h2 res m2) = (a == b)) ∧
    (∀ a b, a ≠ b →
        addRoute [] (Route.apiGatewayV1 h1 res (some a)) =
          .ok [Route.apiGatewayV1 h1 res (some a)] ∧
        addRoute [Route.apiGatewayV1 h1 res (some a)]
            (Route.apiGatewayV1 h2 res (some b)) =
          .ok [Route.apiGatewayV1 h1 res (some a),
               Route.apiGatewayV1 h2 res (some b)]) := by
  refine ⟨?_, ?_, ?_⟩
  · intro hnone
    simp only [Route.hasSameRoute, apiHasSameRoute, beq_self_eq_true, if_true]
    rcases hnone with h | h <;> subst h
    · cases m2 with
      | none => simp [optFalsy]
      | some s =>
          by_cases hs : s.isEmpty <;> simp [optFalsy, hs]
    · cases m1 with
      | none => simp [optFalsy]
      | some s =>
          by_cases hs : s.isEmpty <;> simp [optFalsy, hs]
  · intro a b ha hb
    subst ha; subst hb
    simp only [Route.hasSameRoute, apiHasSameRoute, beq_self_eq_true, if_true,
      optFalsy, Option.isNone_some, Option.isSome_some, Bool.false_and,
      Bool.or_self, Bool.false_eq_true, if_false]
    by_cases he : (a.isEmpty && b.isEmpty) = true
    · have ha2 : a = "" := (String.isEmpty_iff a).mp (Bool.and_eq_true_iff.mp he).1
      have hb2 : b = "" := (String.isEmpty_iff b).mp (Bool.and_eq_true_iff.mp he).2
      subst ha2; subst hb2
      simp
    · simp only [he, if_false]
      rfl
  · intro a b hab
    have hsameBool : apiHasSameRoute res (some b) res (some a) = (b == a) := by
      simp only [apiHasSameRoute, beq_self_eq_true, if_true, optFalsy,
        Option.isNone_some, Option.isSome_some, Bool.false_and, Bool.or_self,
        Bool.false_eq_true, if_false]
      by_cases he : (b.isEmpty && a.isEmpty) = true
      · have hb2 : b = "" := (String.isEmpty_iff b).mp (Bool.and_eq_true_iff.mp he).1
        have ha2 : a = "" := (String.isEmpty_iff a).mp (Bool.and_eq_true_iff.mp he).2
        subst ha2; subst hb2
        simp
      · simp only [he, if_false]
        rfl
    have hsame : (Route.apiGatewayV1 h2 res (some b)).hasSameRoute
        (Route.apiGatewayV1 h1 res (some a)) = false := by
      simp only [Route.hasSameRoute, hsameBool, beq_eq_false_iff_ne, ne_eq]
      exact fun h => hab h.symm
    refine ⟨by simp [addRoute], ?_⟩
    simp [addRoute, hsame]

/-- Witness for C4 at concrete inputs: a path-only route collides with a
`GET` route on the same path; `GET` and `POST` on the same path do not
collide and both registrations succeed. -/
theorem api_route_duplicate_spec_witness :
    (Route.apiGatewayV1 (κ := Unit) (γ := Nat) (fun _ _ => 1)
        (some "/hello") none).hasSameRoute
      (Route.apiGatewayV1 (fun _ _ => 2) (some "/hello") (some "GET")) = true ∧
    (Route.apiGatewayV1 (κ := Unit) (γ := Nat) (fun _ _ => 1)
        (some "/hello") (some "GET")).hasSameRoute
      (Route.apiGatewayV1 (fun _ _ => 2) (some "/hello") (some "POST")) =
      ("GET" == "POST") ∧
    addRoute [Route.apiGatewayV1 (κ := Unit) (γ := Nat) (fun _ _ => 1)
        (some "/hello") (some "GET")]
      (Route.apiGatewayV1 (fun _ _ => 2) (some "/hello") (some "POST")) =
      .ok [Route.apiGatewayV1 (fun _ _ => 1) (some "/hello") (some "GET"),
           Route.apiGatewayV1 (fun _ _ => 2) (some "/hello") (some "POST")] := by
  refine ⟨?_, ?_, ?_⟩
  · exact (api_route_duplicate_spec _ _ _ _ _).1 (Or.inl rfl)
  · exact (api_route_duplicate_spec _ _ _ _ _).2.1 "GET" "POST" rfl rfl
  · exact ((api_route_duplicate_spec (fun _ _ => 1) (fun _ _ => 2)
      (some "/hello") (some "GET") (some "POST")).2.2 "GET" "POST"
      (by decide)).2

/-- C5 counterexample: the claim says queue (SQS) routes match by ARN
prefix, but `SQSRoute.matches_route` compares `eventSourceARN` to
`queue_arn` with `==`: an event whose record ARN strictly extends the
configured ARN passes the source-tag check and the prefix test, yet the
route does not match. -/
theorem sqs_route_prefix_counterexample :
    isEventSource "aws:sqs"
        { records := some [{ eventSource := "aws:sqs",
                             eventSourceARN := "arn:aws:sqs:q:v1" }] } = true ∧
    strStartsWith "arn:aws:sqs:q" "arn:aws:sqs:q:v1" = true ∧
    (Route.sqs (κ := Unit) (γ := Nat) (fun _ _ => 0)
        "arn:aws:sqs:q").matchesRoute
      { records := some [{ eventSource := "aws:sqs",
                           eventSourceARN := "arn:aws:sqs:q:v1" }] } () =
      false := by
  refine ⟨rfl, by decide, rfl⟩

/-- C5 amended: stream (DynamoDB) routes match by ARN prefix
(`startswith`), while queue (SQS) routes require exact ARN equality; the
source-tag check is exact equality on each record's `eventSource` in both
cases. -/
theorem event_route_arn_matching (hq hd : Event → Unit → Nat)
    (qarn tarn : String) (recs : List EventRecord) (e : Event) (c : Unit)
    (h : e.records = some recs) :
    ((Route.sqs hq qarn).matchesRoute e c =
      (recs.any (fun r => r.eventSource == "aws:sqs") &&
        recs.any (fun r => r.eventSourceARN == qarn))) ∧
    ((Route.dynamodbStreams hd tarn).matchesRoute e c =
      (recs.any (fun r => r.eventSource == "aws:dynamodb") &&
        recs.any (fun r => strStartsWith tarn r.eventSourceARN))) := by
  constructor <;> simp [Route.matchesRoute, isEventSource, h]

/-- Witness for the amended C5 at concrete inputs: a DynamoDB route whose
table ARN lacks the stream suffix of the live event still matches; the
same configuration for an SQS route does not match. -/
theorem event_route_arn_matching_witness :
    (Route.dynamodbStreams (fun _ _ => (0 : Nat)) "arn:ddb:table/t").matchesRoute
        { records := some [{ eventSource := "aws:dynamodb",
                             eventSourceARN := "arn:ddb:table/t/stream/1" }] }
        () =
      ([({ eventSource := "aws:dynamodb",
           eventSourceARN := "arn:ddb:table/t/stream/1" } : EventRecord)].any
          (fun r => r.eventSource == "aws:dynamodb") &&
        [({ eventSource := "aws:dynamodb",
            eventSourceARN := "arn:ddb:table/t/stream/1" } : EventRecord)].any
          (fun r => strStartsWith "arn:ddb:table/t" r.eventSourceARN)) ∧
    (Route.sqs (fun _ _ => (0 : Nat)) "arn:sqs:q").matchesRoute
        { records := some [{ eventSource := "aws:sqs",
                             eventSourceARN := "arn:sqs:q:v1" }] } () =
      ([({ eventSource := "aws:sqs",
           eventSourceARN := "arn:sqs:q:v1" } : EventRecord)].any
          (fun r => r.eventSource == "aws:sqs") &&
        [({ eventSource := "aws:sqs",
            eventSourceARN := "arn:sqs:q:v1" } : EventRecord)].any
          (fun r => r.eventSourceARN == "arn:sqs:q")) := by
  constructor
  · exact (event_route_arn_matching (fun _ _ => 0) (fun _ _ => 0)
      "arn:sqs:q" "arn:ddb:table/t" _ _ () rfl).2
  · exact (event_route_arn_matching (fun _ _ => 0) (fun _ _ => 0)
      "arn:sqs:q" "arn:ddb:table/t" _ _ () rfl).1

/-! ### Feature-flag evaluation theorems -/

/-- C2: context-aware evaluation looks the value up through the provider,
synthesizing `{enabled: default, context: none}` on `FlagNotFound` (hence
returning the default); with a stored `context` of `None` it returns the
stored `enabled` whatever context is supplied; with a stored context list
it returns false when no context is supplied and otherwise the membership
of the supplied context string in the list. -/
theorem context_aware_evaluate_spec (provider : FlagProvider) (key : String)
    (default : Bool) (ctx : Option String) :
    (∀ k2, provider key = .error (.flagNotFound k2) →
        contextAwareEvaluate provider key default ctx = .ok (.bool default)) ∧
    (∀ v, provider key = .ok v →
        ((v.context = none →
            contextAwareEvaluate provider key default ctx = .ok v.enabled) ∧
          (∀ l, v.context = some l → ctx = none →
            contextAwareEvaluate provider key default ctx =
              .ok (.bool false)) ∧
          (∀ l c, v.context = some l → ctx = some c →
            contextAwareEvaluate provider key default ctx =
              .ok (.bool (strInJsonList c l))))) := by
  refine ⟨?_, ?_⟩
  · intro k2 h
    simp [contextAwareEvaluate, flagValue, h]
  · intro v h
    refine ⟨?_, ?_, ?_⟩
    · intro hctx
      simp [contextAwareEvaluate, flagValue, h, hctx]
    · intro l hctx hnone
      simp [contextAwareEvaluate, flagValue, h, hctx, hnone]
    · intro l c hctx hsome
      simp [contextAwareEvaluate, flagValue, h, hctx, hsome]

/-- Witness for C2 at concrete inputs: a missing key evaluates to the
default; a stored `context = ["A"]` makes `evaluate(none)` false,
`evaluate("A")` true and `evaluate("B")` false; a stored `context = None`
returns the stored `enabled` under any supplied context. -/
theorem context_aware_evaluate_spec_witness :
    contextAwareEvaluate (fun k => .error (.flagNotFound k)) "f" true
        (some "A") = .ok (.bool true) ∧
    contextAwareEvaluate
        (fun _ => .ok { enabled := .bool true, context := some [.str "A"] })
        "f" false none = .ok (.bool false) ∧
    contextAwareEvaluate
        (fun _ => .ok { enabled := .bool true, context := some [.str "A"] })
        "f" false (some "A") = .ok (.bool (strInJsonList "A" [.str "A"])) ∧
    contextAwareEvaluate
        (fun _ => .ok { enabled := .bool true, context := some [.str "A"] })
        "f" false (some "B") = .ok (.bool (strInJsonList "B" [.str "A"])) ∧
    contextAwareEvaluate
        (fun _ => .ok { enabled := .bool true, context := none }) "f" false
        (some "B") = .ok (.bool true) := by
  refine ⟨?_, ?_, ?_, ?_, ?_⟩
  · exact (context_aware_evaluate_spec _ "f" true (some "A")).1 "f" rfl
  · exact (((context_aware_evaluate_spec _ "f" false none).2 _ rfl).2.1
      [.str "A"] rfl rfl)
  · exact (((context_aware_evaluate_spec _ "f" false (some "A")).2 _ rfl).2.2
      [.str "A"] "A" rfl rfl)
  · exact (((context_aware_evaluate_spec _ "f" false (some "B")).2 _ rfl).2.2
      [.str "A"] "B" rfl rfl)
  · exact (((context_aware_evaluate_spec _ "f" false (some "B")).2
      { enabled := .bool true, context := none } rfl).1 rfl)

/-- C9: a toggle flag's evaluation ignores the supplied context entirely —
`evaluate(ctx) = evaluate()` for every `ctx` — and returns the stored
value's `enabled` field, even when the stored value carries a context
list. -/
theorem toggle_evaluate_spec (provider : FlagProvider) (key : String)
    (default : Bool) (ctx : Option String) :
    toggleEvaluate provider key default ctx =
      toggleEvaluate provider key default none ∧
    (∀ v, provider key = .ok v →
        toggleEvaluate provider key default ctx = .ok v.enabled) := by
  refine ⟨rfl, ?_⟩
  intro v h
  simp [toggleEvaluate, flagValue, h]

/-- Witness for C9 at a concrete input: a stored value with a context list
still evaluates to its `enabled` field under any supplied context. -/
theorem toggle_evaluate_spec_witness :
    toggleEvaluate
        (fun _ => .ok { enabled := .bool true, context := some [.str "A"] })
        "f" false (some "B") = .ok (.bool true) ∧
    toggleEvaluate
        (fun _ => .ok { enabled := .bool true, context := some [.str "A"] })
        "f" false (some "B") =
      toggleEvaluate
        (fun _ => .ok { enabled := .bool true, context := some [.str "A"] })
        "f" false none := by
  constructor
  · exact (toggle_evaluate_spec _ "f" false (some "B")).2
      { enabled := .bool true, context := some [.str "A"] } rfl
  · exact (toggle_evaluate_spec _ "f" false (some "B")).1

/-! ### Parameter-store provider theorems -/

/-- C6 counterexample: the claim says a non-boolean parsed `enabled` value
raises the validation error, but the membership test `enabled in
(True, False)` uses Python `==`, under which `1 == True`: an `enabled`
parameter whose JSON value is the integer `1` is accepted and stored
as-is instead of failing. -/
theorem get_flag_validation_counterexample :
    isPyBool (.num 1) = true ∧
    (∀ b, Json.num 1 ≠ .bool b) ∧
    getFlag (fun s => if s == "1" then some (.num 1) else none) "k"
        (.ok [{ name := "/applications/app/flags/k/enabled", value := "1" }]) =
      .ok { enabled := .num 1, context := none } := by
  refine ⟨rfl, ?_, rfl⟩
  intro b h
  exact Json.noConfusion h

/-- `loadSwallow` never produces a JSON null: `json.loads` results of
`null` are mapped to Python `None` (absence). -/
theorem loadSwallow_ne_null (parse : String → Option Json)
    (x : Option String) : loadSwallow parse x ≠ some .null := by
  cases x with
  | none => simp [loadSwallow]
  | some s =>
      simp only [loadSwallow]
      by_cases hs : s.isEmpty
      · simp [hs]
      · simp only [hs, Bool.false_eq_true, if_false]
        cases hp : parse s with
        | none => simp
        | some j => cases j <;> simp

/-- C6 amended: a missing, null, empty or unparseable `enabled` parameter
raises `FlagNotFound`; an `enabled` value that is neither a boolean nor
one of the integers `0` / `1` (which Python's `==` identifies with
`False` / `True` and which are therefore accepted) raises the validation
error; a missing, null or unparseable `context` parameter yields
`context = none`; a `context` value that is not a list raises the
validation error, and a list is stored as the context. -/
theorem get_flag_spec (parse : String → Option Json) (key : String)
    (params : List Param) :
    (params.find? (fun p => strEndsWith "enabled" p.name) = none →
        getFlag parse key (.ok params) = .error (.flagNotFound key)) ∧
    (∀ ep, params.find? (fun p => strEndsWith "enabled" p.name) = some ep →
      ((loadSwallow parse (some ep.value) = none →
          getFlag parse key (.ok params) = .error (.flagNotFound key)) ∧
        (∀ j, loadSwallow parse (some ep.value) = some j →
          ((isPyBool j = false →
              getFlag parse key (.ok params) = .error (.valueError key)) ∧
            (isPyBool j = true →
              ((loadSwallow parse
                    ((params.find? (fun p => strEndsWith "context" p.name)).map
                      Param.value) = none →
                  getFlag parse key (.ok params) =
                    .ok { enabled := j, context := none }) ∧
                (∀ xs, loadSwallow parse
                    ((params.find? (fun p => strEndsWith "context" p.name)).map
                      Param.value) = some (.arr xs) →
                  getFlag parse key (.ok params) =
                    .ok { enabled := j, context := some xs }) ∧
                (∀ cj, loadSwallow parse
                    ((params.find? (fun p => strEndsWith "context" p.name)).map
                      Param.value) = some cj → (∀ xs, cj ≠ .arr xs) →
                  getFlag parse key (.ok params) =
                    .error (.valueError key)))))))) := by
  have hne : params.find? (fun p => strEndsWith "enabled" p.name) ≠ none →
      params.isEmpty = false := by
    intro h
    cases params with
    | nil => exact absurd rfl h
    | cons p ps => rfl
  refine ⟨?_, ?_⟩
  · intro h
    by_cases he : params.isEmpty
    · simp [getFlag, he]
    · simp [getFlag, eq_false_of_ne_true he, h]
  · intro ep hep
    have hemp : params.isEmpty = false := hne (by simp [hep])
    refine ⟨?_, ?_⟩
    · intro h
      simp [getFlag, hemp, hep, h]
    · intro j hj
      refine ⟨?_, ?_⟩
      · intro hpb
        simp [getFlag, hemp, hep, hj, hpb]
      · intro hpb
        refine ⟨?_, ?_, ?_⟩
        · intro hctx
          simp [getFlag, hemp, hep, hj, hpb, hctx]
        · intro xs hctx
          simp [getFlag, hemp, hep, hj, hpb, hctx]
        · intro cj hctx hnotarr
          cases cj with
          | arr xs => exact absurd rfl (hnotarr xs)
          | null => exact absurd hctx (loadSwallow_ne_null parse _)
          | bool b => simp [getFlag, hemp, hep, hj, hpb, hctx]
          | num n => simp [getFlag, hemp, hep, hj, hpb, hctx]
          | str s => simp [getFlag, hemp, hep, hj, hpb, hctx]
          | obj fs => simp [getFlag, hemp, hep, hj, hpb, hctx]

/-- Witness for the amended C6 at concrete inputs: null enabled raises
`FlagNotFound`; a string enabled raises the validation error; a boolean
enabled with an unparseable context yields `context = none`; a boolean
enabled with a list context stores the list; a boolean enabled with a
string context raises the validation error. -/
theorem get_flag_spec_witness :
    getFlag paramParse "k"
        (.ok [{ name := "/a/f/k/enabled", value := "null" }]) =
      .error (.flagNotFound "k") ∧
    getFlag paramParse "k"
        (.ok [{ name := "/a/f/k/enabled", value := "\"x\"" }]) =
      .error (.valueError "k") ∧
    getFlag paramParse "k"
        (.ok [{ name := "/a/f/k/enabled", value := "true" },
              { name := "/a/f/k/context", value := "oops" }]) =
      .ok { enabled := .bool true, context := none } ∧
    getFlag paramParse "k"
        (.ok [{ name := "/a/f/k/enabled", value := "true" },
              { name := "/a/f/k/context", value := "[\"A\"]" }]) =
      .ok { enabled := .bool true, context := some [.str "A"] } ∧
    getFlag paramParse "k"
        (.ok [{ name := "/a/f/k/enabled", value := "true" },
              { name := "/a/f/k/context", value := "\"A\"" }]) =
      .error (.valueError "k") := by
  refine ⟨?_, ?_, ?_, ?_, ?_⟩
  · exact ((get_flag_spec paramParse "k"
      [{ name := "/a/f/k/enabled", value := "null" }]).2
      { name := "/a/f/k/enabled", value := "null" } rfl).1 rfl
  · exact (((get_flag_spec paramParse "k"
      [{ name := "/a/f/k/enabled", value := "\"x\"" }]).2
      { name := "/a/f/k/enabled", value := "\"x\"" } rfl).2 (.str "x") rfl).1 rfl
  · exact ((((get_flag_spec paramParse "k"
      [{ name := "/a/f/k/enabled", value := "true" },
       { name := "/a/f/k/context", value := "oops" }]).2
      { name := "/a/f/k/enabled", value := "true" } rfl).2 (.bool true)
      rfl).2 rfl).1 rfl
  · exact ((((get_flag_spec paramParse "k"
      [{ name := "/a/f/k/enabled", value := "true" },
       { name := "/a/f/k/context", value := "[\"A\"]" }]).2
      { name := "/a/f/k/enabled", value := "true" } rfl).2 (.bool true)
      rfl).2 rfl).2.1 [.str "A"] rfl
  · exact ((((get_flag_spec paramParse "k"
      [{ name := "/a/f/k/enabled", value := "true" },
       { name := "/a/f/k/context", value := "\"A\"" }]).2
      { name := "/a/f/k/enabled", value := "true" } rfl).2 (.bool true)
      rfl).2 rfl).2.2 (.str "A") rfl (fun xs h => Json.noConfusion h)

/-- C10: any exception raised by the `get_parameters_by_path` call itself is
converted to `FlagNotFound(key)`, and every outcome of `get_flag` is a
value, `FlagNotFound(key)` or the validation error for that key — a
transport failure is indistinguishable from an unconfigured flag. -/
theorem get_flag_transport_spec (parse : String → Option Json) (key : String)
    (excMsg : String) (ssmResult : Except String (List Param)) :
    getFlag parse key (.error excMsg) = .error (.flagNotFound key) ∧
    ((∃ v, getFlag parse key ssmResult = .ok v) ∨
      getFlag parse key ssmResult = .error (.flagNotFound key) ∨
      getFlag parse key ssmResult = .error (.valueError key)) := by
  refine ⟨rfl, ?_⟩
  cases ssmResult with
  | error e => exact Or.inr (Or.inl rfl)
  | ok params =>
      simp only [getFlag]
      repeat' split
      all_goals
        first
          | exact Or.inl ⟨_, rfl⟩
          | exact Or.inr (Or.inl rfl)
          | exact Or.inr (Or.inr rfl)

/-! ### SQS adapter theorems -/

/-- The failed-items list is exactly the message ids of the records whose
processing raised, in batch order. -/
theorem sqsFailedItems_eq_filter (proc : SQSRecord → Except PyExc Unit)
    (records : List SQSRecord) :
    sqsFailedItems proc records =
      (records.filter (fun r => raised (proc r))).map SQSRecord.messageId := by
  induction records with
  | nil => rfl
  | cons r rest ih =>
      cases hp : proc r with
      | ok u => simp [sqsFailedItems, hp, List.filter_cons, raised, ih]
      | error e => simp [sqsFailedItems, hp, List.filter_cons, raised, ih]

/-- C7: the queue adapter processes every record of the batch — a record
whose processing raises only contributes its message id to the
failed-items list and never aborts the rest of the batch — and returns
`{"batchItemFailures": [{"itemIdentifier": id}, ...]}` holding exactly the
ids of the records that raised, the empty list when every record
succeeds. -/
theorem sqs_handler_batch_spec (proc : SQSRecord → Except PyExc Unit)
    (records : List SQSRecord) :
    sqsHandlerCall proc records =
      .obj [("batchItemFailures",
        .arr ((records.filter (fun r => raised (proc r))).map
          (fun r => .obj [("itemIdentifier", .str r.messageId)])))] ∧
    ((∀ r ∈ records, raised (proc r) = false) →
        sqsHandlerCall proc records =
          .obj [("batchItemFailures", .arr [])]) := by
  constructor
  · simp [sqsHandlerCall, sqsFailedItems_eq_filter, List.map_map]
  · intro hall
    have hfil : records.filter (fun r => raised (proc r)) = [] :=
      List.filter_eq_nil_iff.mpr (fun r hr => by simp [hall r hr])
    simp [sqsHandlerCall, sqsFailedItems_eq_filter, hfil]

/-- Witness for C7 at a concrete input: in a three-record batch whose middle
record raises, the failure list holds exactly that record's id; a batch
whose records all succeed yields the empty list. -/
theorem sqs_handler_batch_spec_witness :
    sqsHandlerCall
        (fun r => if r.messageId == "m2" then
            .error { typeName := "ValueError", msg := "boom" } else .ok ())
        [{ messageId := "m1", body := "b1" },
         { messageId := "m2", body := "b2" },
         { messageId := "m3", body := "b3" }] =
      .obj [("batchItemFailures",
        .arr (([({ messageId := "m1", body := "b1" } : SQSRecord),
                { messageId := "m2", body := "b2" },
                { messageId := "m3", body := "b3" }].filter
            (fun r => raised (if r.messageId == "m2" then
              (.error { typeName := "ValueError", msg := "boom" } :
                Except PyExc Unit) else .ok ()))).map
          (fun r => .obj [("itemIdentifier", .str r.messageId)])))] ∧
    sqsHandlerCall (fun _ => .ok ())
        [{ messageId := "m1", body := "b1" }] =
      .obj [("batchItemFailures", .arr [])] := by
  constructor
  · exact (sqs_handler_batch_spec _ _).1
  · exact (sqs_handler_batch_spec (fun _ => .ok ())
      [{ messageId := "m1", body := "b1" }]).2 (fun r _ => rfl)

/-! ### API Gateway adapter theorems -/

/-- C8 counterexample: the claim says the adapter returns a well-formed
response for every inbound event and never lets a raw exception escape,
but `_prepare_request` runs before the `try` block: an event whose body
is neither form-urlencoded nor JSON makes `__call__` raise a raw
`ValueError`. Additionally, an exception type registered with status 500
is logged even though it is registered. -/
theorem api_gateway_response_counterexample :
    apiGatewayCall (fun _ => none) id (fun _ => .obj []) (fun _ => none)
        (fun _ => .ok (200, .obj [])) { body := some "not json" } =
      .error { typeName := "ValueError", msg := "Unsupported content type" } ∧
    apiGatewayCall (fun _ => none) id (fun _ => .obj [])
        (fun t => if t == "MyError" then some 500 else none)
        (fun _ => .error { typeName := "MyError", msg := "m" })
        { body := none } =
      .ok ({ statusCode := 500,
             headers := [("Content-Type", "application/json")],
             body := Json.dumps (.obj
               [("message", .str "An unexpected error happened"),
                ("error_type", .str "MyError")]) }, true) := by
  exact ⟨rfl, rfl⟩

/-- C8 amended: for every inbound event whose request preparation succeeds,
the adapter returns a well-formed response — `statusCode`, a
`Content-Type: application/json` header, and a JSON-string body — and a
handler exception never escapes: it is mapped through the
`allowed_errors` table (default 500) into a `{message, error_type}` body,
with instrumentation logging exactly when the resolved status is 500.
Exceptions raised while preparing the request itself propagate. -/
theorem api_gateway_response_spec (parse : String → Option Json)
    (unquote : String → String) (parseQs : String → Json)
    (allowedErrors : String → Option Nat)
    (handler : HTTPRequest → Except PyExc (Nat × Json)) (event : ApiGwEvent)
    (request : HTTPRequest)
    (hprep : prepareRequest parse unquote parseQs event = .ok request) :
    (∀ statusCode body, handler request = .ok (statusCode, body) →
        apiGatewayCall parse unquote parseQs allowedErrors handler event =
          .ok ({ statusCode := statusCode,
                 headers := [("Content-Type", "application/json")],
                 body := Json.dumps body }, false)) ∧
    (∀ exc, handler request = .error exc →
        ((allowedErrors exc.typeName).getD 500 = 500 →
            apiGatewayCall parse unquote parseQs allowedErrors handler event =
              .ok ({ statusCode := 500,
                     headers := [("Content-Type", "application/json")],
                     body := Json.dumps (.obj
                       [("message", .str "An unexpected error happened"),
                        ("error_type", .str exc.typeName)]) }, true)) ∧
          (∀ sc, (allowedErrors exc.typeName).getD 500 = sc → sc ≠ 500 →
            apiGatewayCall parse unquote parseQs allowedErrors handler event =
              .ok ({ statusCode := sc,
                     headers := [("Content-Type", "application/json")],
                     body := Json.dumps (.obj
                       [("message", .str (stripQuotes exc.msg)),
                        ("error_type", .str exc.typeName)]) }, false))) := by
  constructor
  · intro statusCode body hh
    simp [apiGatewayCall, hprep, hh]
  · intro exc hh
    constructor
    · intro h500
      simp [apiGatewayCall, hprep, hh, handleError, h500]
    · intro sc hsc hne
      simp [apiGatewayCall, hprep, hh, handleError, hsc, hne]

/-- Witness for the amended C8 at concrete inputs: a succeeding handler
yields its status and JSON body; an unregistered exception yields the
logged 500 response; a registered exception yields its mapped status,
stripped message and no logging. -/
theorem api_gateway_response_spec_witness :
    apiGatewayCall paramParse id (fun _ => .obj []) (fun _ => none)
        (fun _ => .ok (201, .obj [("ok", .bool true)])) { body := none } =
      .ok ({ statusCode := 201,
             headers := [("Content-Type", "application/json")],
             body := Json.dumps (.obj [("ok", .bool true)]) }, false) ∧
    apiGatewayCall paramParse id (fun _ => .obj []) (fun _ => none)
        (fun _ => .error { typeName := "RuntimeError", msg := "boom" })
        { body := none } =
      .ok ({ statusCode := 500,
             headers := [("Content-Type", "application/json")],
             body := Json.dumps (.obj
               [("message", .str "An unexpected error happened"),
                ("error_type", .str "RuntimeError")]) }, true) ∧
    apiGatewayCall paramParse id (fun _ => .obj [])
        (fun t => if t == "NotFoundError" then some 404 else none)
        (fun _ => .error { typeName := "NotFoundError", msg := "gone" })
        { body := none } =
      .ok ({ statusCode := 404,
             headers := [("Content-Type", "application/json")],
             body := Json.dumps (.obj
               [("message", .str (stripQuotes "gone")),
                ("error_type", .str "NotFoundError")]) }, false) := by
  refine ⟨?_, ?_, ?_⟩
  · exact (api_gateway_response_spec paramParse id (fun _ => .obj [])
      (fun _ => none) _ { body := none } _ rfl).1 201 (.obj [("ok", .bool true)])
      rfl
  · exact ((api_gateway_response_spec paramParse id (fun _ => .obj [])
      (fun _ => none) _ { body := none } _ rfl).2
      { typeName := "RuntimeError", msg := "boom" } rfl).1 rfl
  · exact ((api_gateway_response_spec paramParse id (fun _ => .obj [])
      (fun t => if t == "NotFoundError" then some 404 else none) _
      { body := none } _ rfl).2
      { typeName := "NotFoundError", msg := "gone" } rfl).2 404 rfl
      (by decide)

end VyLambdaTools
